import Mathlib

/-!
Verification development for the Llama3 pipeline scheduler and cache
bookkeeping layer (`pipelines/python/llama3/llama3.py`,
`pipelines/python/llama3/config.py`,
`pipelines/python/llama3/model/hyperparameters.py`).

Shallow embedding conventions:
* Python `int` is modelled as `Int` (`Nat` for lengths / counters).
* A numpy array of shape `(1, n)` (the per-request `next_tokens` row and the
  arrays passed to `Llama3Context.append`) is modelled as its single row, a
  `List Int`; a 2-D array is `List (List Int)`; a 3-D array is
  `List (List (List Int))`.
* Fallible Python operations (a failing `assert`, an out-of-range index, a
  `ValueError` from numpy, reading an attribute that was never assigned)
  return `Option`, with `none` for the raised exception.
* The tokenizer is external: `encode` results enter as explicit `List Int`
  arguments and `decode` / argmax-of-logits enter as explicit function
  arguments, since all tensor math is opaque to this layer.
-/

/-- Padding (from) direction for the attention mask, from `PaddingDirection`
in llama3.py. -/
inductive PaddingDirection where
  | LEFT
  | RIGHT
deriving DecidableEq, Repr

/-- Supported weight encodings, from `SupportedEncodings` in config.py. -/
inductive SupportedEncodings where
  | float32
  | bfloat16
  | q4_0
  | q4_k
  | q6_k
deriving DecidableEq, Repr

/-- Modelled from the spec: the cache strategy enum `KVCacheStrategy` is
imported by config.py from `nn.kv_cache`, whose source is not part of this
repository snapshot; the spec lists its values as `NAIVE`, `CONTIGUOUS`,
`CONTINUOUS`. -/
inductive KVCacheStrategy where
  | NAIVE
  | CONTIGUOUS
  | CONTINUOUS
deriving DecidableEq, Repr

/-- The configurable parameters of `InferenceConfig` (config.py) that this
layer reads, with their source defaults. Device, paths and sampling fields
are opaque to the scheduler and omitted. -/
structure InferenceConfig where
  quantization_encoding : SupportedEncodings := SupportedEncodings.q4_k
  max_length : Int := 512
  max_new_tokens : Int := -1
  max_cache_batch_size : Int := 16
  cache_strategy : KVCacheStrategy := KVCacheStrategy.CONTINUOUS
deriving DecidableEq, Repr

/-- Embeds `InferenceConfig.__post_init__` (config.py lines 159-166): if the
quantization encoding is not in `[float32, bfloat16]`, the cache strategy is
overwritten with `NAIVE`; otherwise the config is left as constructed. -/
def InferenceConfig.postInit (self : InferenceConfig) : InferenceConfig :=
  if self.quantization_encoding ∉
      [SupportedEncodings.float32, SupportedEncodings.bfloat16] then
    { self with cache_strategy := KVCacheStrategy.NAIVE }
  else
    self

/-- Embeds `Llama3Context` (llama3.py lines 47-68). `next_tokens` is the single row
of the `(1, n)` numpy array; `tokens` are the tokens generated so far. -/
structure Llama3Context where
  prompt : String
  max_tokens : Int
  next_tokens : List Int := []
  tokens : List Int := []
  decoded : String := ""
deriving DecidableEq, Repr

/-- Embeds `Llama3Context.append` (llama3.py lines 57-61): asserts the appended
array has shape `(1, ≥1)` (a failing assert raises, hence `none`), then
replaces `next_tokens`, extends `tokens` with the row, and concatenates the
decoded text. -/
def Llama3Context.append (self : Llama3Context) (token_ids : List Int)
    (decoded : String) : Option Llama3Context :=
  if 1 ≤ token_ids.length then
    some { self with
            next_tokens := token_ids,
            tokens := self.tokens ++ token_ids,
            decoded := self.decoded ++ decoded }
  else
    none

/-- Embeds `Llama3Context.is_done` (llama3.py lines 63-68): reads `tokens[-1]`
(raising `IndexError` on an empty list, hence `none`), returns true when the
last token equals `eos`, or when `len(tokens) > max_tokens` (strict), else
false. -/
def Llama3Context.is_done (self : Llama3Context) (eos : Int) : Option Bool :=
  self.tokens.getLast?.bind fun last =>
    if last = eos then some true
    else if self.max_tokens < (self.tokens.length : Int) then some true
    else some false

/-- Embeds `_max_tokens_to_generate` (llama3.py lines 307-318): the per-call
`max_new_tokens` argument (`none` models Python `None`) defaults to
`config.max_new_tokens`; a negative value means "no explicit cap". -/
def _max_tokens_to_generate (prompt_size : Int) (config : InferenceConfig)
    (max_new_tokens : Option Int) : Int :=
  let m := match max_new_tokens with
    | some v => v
    | none => config.max_new_tokens
  if m < 0 then config.max_length - prompt_size
  else min m (config.max_length - prompt_size)

/-- Embeds `Llama3.new_context` (llama3.py lines 177-189): the tokenizer is
external, so the encoded prompt is an explicit argument. The context is
created with `max_tokens = prompt_size + _max_tokens_to_generate(...)` and
the full encoded prompt is appended (shape `(1, len(encoded_prompt))`); the
only failing path is `append`'s assert on an empty encoding. -/
def new_context (config : InferenceConfig) (prompt : String)
    (encoded_prompt : List Int) (max_new_tokens : Option Int) :
    Option Llama3Context :=
  let prompt_size : Int := encoded_prompt.length
  let max_tokens_to_gen :=
    _max_tokens_to_generate prompt_size config max_new_tokens
  let context : Llama3Context :=
    { prompt := prompt, max_tokens := prompt_size + max_tokens_to_gen }
  context.append encoded_prompt prompt

/-- Shape of a 2-D numpy array modelled as a rectangular list of rows:
`(rows, columns)`, columns read from the first row. -/
def np_shape2 (a : List (List Int)) : Nat × Nat :=
  (a.length, (a.headD []).length)

/-- Models `np.pad(a, (before, after), constant_values=pad)` on a 2-D array: numpy
broadcasts the scalar pair `(before, after)` to EVERY axis, so both the row
axis and the column axis are padded. -/
def np_pad2 (a : List (List Int)) (before after : Nat) (pad : Int) :
    List (List Int) :=
  let padRow : List Int → List Int := fun r =>
    List.replicate before pad ++ r ++ List.replicate after pad
  let width := (a.headD []).length + before + after
  let blank := List.replicate width pad
  List.replicate before blank ++ a.map padRow ++ List.replicate after blank

/-- Models `np.stack` on a list of 2-D arrays: raises `ValueError` (hence `none`)
when the input is empty or the shapes disagree; otherwise the 3-D result is
the list of the 2-D arrays. -/
def np_stack (ts : List (List (List Int))) :
    Option (List (List (List Int))) :=
  match ts with
  | [] => none
  | t :: rest =>
    if rest.all (fun u => np_shape2 u == np_shape2 t) then some (t :: rest)
    else none

/-- Models `np.squeeze(a, axis=1)` on a 3-D array: raises (hence `none`) unless
every entry along axis 1 has size one, in which case that axis is dropped. -/
def np_squeeze_axis1 (a : List (List (List Int))) :
    Option (List (List Int)) :=
  if a.all (fun m => m.length == 1) then some (a.map (fun m => m.headD []))
  else none

/-- Embeds `Llama3._batch_tensors_with_padding` (llama3.py lines 225-258): the
batch is the ordered list of contexts (`batch.values()`); `max(lengths)`
raises on an empty batch (hence the `max?` bind); each `(1, nᵢ)`
`next_tokens` array is padded with `np.pad` using a scalar pair that depends
on the direction, the results are stacked and the axis-1 squeeze produces
the `(batch_size, seq_len)` tensor, returned with the max padded length. -/
def _batch_tensors_with_padding (batch : List Llama3Context)
    (direction : PaddingDirection := PaddingDirection.LEFT)
    (pad_token : Int := 0) : Option (List (List Int) × Nat) := do
  let lengths := batch.map (fun request => request.next_tokens.length)
  let max_length ← lengths.max?
  let tensors := batch.map (fun context =>
    let pad_length :=
      if direction = PaddingDirection.LEFT then
        (max_length - context.next_tokens.length, 0)
      else
        (0, max_length - context.next_tokens.length)
    np_pad2 [context.next_tokens] pad_length.1 pad_length.2 pad_token)
  let stacked ← np_stack tensors
  let batched_np_tensor ← np_squeeze_axis1 stacked
  return (batched_np_tensor, max_length)

/-- The scheduler-visible mutable state of `Llama3`: the `_sessions` id set
and the KV cache's `sequence_length` counter (the only cache field this
layer mutates directly; the cache class itself lives outside this
snapshot). -/
structure Llama3State where
  _sessions : Finset String
  sequence_length : Nat
deriving DecidableEq

/-- Embeds `Llama3._reset_cache` (llama3.py lines 217-220): zero the cache's
`sequence_length`. -/
def _reset_cache (st : Llama3State) : Llama3State :=
  { st with sequence_length := 0 }

/-- The session-reconciliation prefix of `Llama3.next_token` (llama3.py
lines 196-199): when `self._sessions ^ req_ids` (symmetric difference) is
non-empty, `_sessions` is overwritten with the supplied id set and
`_reset_cache` runs; otherwise nothing changes. -/
def reconcile_sessions (st : Llama3State) (req_ids : Finset String) :
    Llama3State :=
  if (st._sessions \ req_ids) ∪ (req_ids \ st._sessions) ≠ ∅ then
    _reset_cache { st with _sessions := req_ids }
  else
    st

/-- The per-request body of the `next_token` loop (llama3.py lines 203-215),
specialised to the result of one forward pass: `produce req_id` is the
argmax token of that request's last-position logits and `decode` is the
external `tokenizer.decode`. Each context is advanced with the single new
token and the request is added to the returned mapping only when the
updated context is not done. The returned pair is (updated ordered
contexts, `res` in insertion order). -/
def next_token_loop (eos : Int) (produce : String → Int)
    (decode : Int → String) :
    List (String × Llama3Context) →
    Option (List (String × Llama3Context) × List (String × String))
  | [] => some ([], [])
  | (request_id, context) :: rest => do
    let tok := produce request_id
    let decoded_token := decode tok
    let context' ← context.append [tok] decoded_token
    let done ← context'.is_done eos
    let (ctxs, res) ← next_token_loop eos produce decode rest
    some ((request_id, context') :: ctxs,
          if done then res else (request_id, decoded_token) :: res)

/-- Embeds `Llama3.next_token` (llama3.py lines 191-215) at the scheduling level:
reconcile the session set against the supplied ordered request mapping,
then run the per-request loop. The opaque forward pass is summarised by
`produce`/`decode`. Returns the new scheduler state, the updated contexts
and the result mapping. -/
def next_token (eos : Int) (produce : String → Int) (decode : Int → String)
    (st : Llama3State) (reqs : List (String × Llama3Context)) :
    Option (Llama3State ×
      (List (String × Llama3Context) × List (String × String))) :=
  let st' := reconcile_sessions st (reqs.map Prod.fst).toFinset
  (next_token_loop eos produce decode reqs).map (fun out => (st', out))

/-- The subset of `Hyperparameters` (model/hyperparameters.py) read by the
code under verification, with the source defaults (the two float fields are
opaque to this layer and omitted). -/
structure Hyperparameters where
  seq_len : Int := 2048
  n_layers : Int := 32
  n_heads : Int := 32
  n_kv_heads : Int := 8
  vocab_size : Int := 128256
  hidden_dim : Int := 4096
deriving DecidableEq, Repr

/-- The vocab-size resolution step of `Llama3.__init__` (llama3.py lines
119-149), keeping the source's assignment order: at lines 123-124 the code
reads `self._tokenizer.vocab_size`, but `self._tokenizer` is only assigned
at line 146 (the class-level `_tokenizer: Tokenizer` annotation creates no
attribute), so at line 124 the attribute table holds no `_tokenizer` —
modelled as `none` — and the read raises `AttributeError`. On the
non-negative path the hyperparameters pass through unchanged and `init`
proceeds. -/
def Llama3_init (params : Hyperparameters)
    (_tokenizer_vocab_size : Int) : Option Hyperparameters :=
  let tokenizer_attr_at_line_124 : Option Int := none
  if params.vocab_size < 0 then
    match tokenizer_attr_at_line_124 with
    | none => none
    | some v => some { params with vocab_size := v }
  else
    some params

/-- The effect of one loop iteration of `next_token` on a single
`(request_id, context)` pair: the produced token is appended and the decoded
fragment concatenated, exactly as `Llama3Context.append` does on a
single-token array. -/
def stepOne (produce : String → Int) (decode : Int → String)
    (p : String × Llama3Context) : String × Llama3Context :=
  (p.1, { p.2 with
           next_tokens := [produce p.1],
           tokens := p.2.tokens ++ [produce p.1],
           decoded := p.2.decoded ++ decode (produce p.1) })

lemma append_single (ctx : Llama3Context) (t : Int) (d : String) :
    ctx.append [t] d =
      some { ctx with next_tokens := [t], tokens := ctx.tokens ++ [t],
                      decoded := ctx.decoded ++ d } := by
  simp [Llama3Context.append]

lemma is_done_of_ne_nil (ctx : Llama3Context) (eos : Int)
    (h : ctx.tokens ≠ []) : ∃ b, ctx.is_done eos = some b := by
  unfold Llama3Context.is_done
  obtain ⟨last, hg⟩ := Option.isSome_iff_exists.mp (List.getLast?_isSome.mpr h)
  rw [hg]
  simp only [Option.some_bind]
  split_ifs <;> exact ⟨_, rfl⟩

lemma next_token_loop_eq (eos : Int) (produce : String → Int)
    (decode : Int → String) :
    ∀ reqs : List (String × Llama3Context),
    next_token_loop eos produce decode reqs =
      some (reqs.map (stepOne produce decode),
            ((reqs.map (stepOne produce decode)).filter
               (fun p => p.2.is_done eos == some false)).map
              (fun p => (p.1, decode (produce p.1))))
  | [] => rfl
  | (request_id, context) :: rest => by
    have ih := next_token_loop_eq eos produce decode rest
    have happ := append_single context (produce request_id)
      (decode (produce request_id))
    obtain ⟨b, hb⟩ := is_done_of_ne_nil
      { context with
          next_tokens := [produce request_id],
          tokens := context.tokens ++ [produce request_id],
          decoded := context.decoded ++ decode (produce request_id) } eos
      (by simp)
    simp only [next_token_loop, happ, Option.bind_eq_bind, Option.some_bind,
      hb, ih, List.map_cons, List.filter_cons]
    cases b with
    | true => simp [stepOne, hb]
    | false => simp [stepOne, hb]

lemma sdiff_union_sdiff_eq_empty_iff (a b : Finset String) :
    (a \ b) ∪ (b \ a) = ∅ ↔ a = b := by
  rw [Finset.union_eq_empty, Finset.sdiff_eq_empty_iff_subset,
    Finset.sdiff_eq_empty_iff_subset]
  constructor
  · rintro ⟨h1, h2⟩
    exact Finset.Subset.antisymm h1 h2
  · rintro rfl
    exact ⟨Finset.Subset.refl a, Finset.Subset.refl a⟩

/-- C1: the claim states that across next_token steps `len(tokens)` is
non-decreasing and never exceeds `max_tokens`. The second half fails on the
code: `is_done` compares with strict `>`, so a live context whose token
count already equals `max_tokens` (here 5 prompt tokens, `max_tokens = 5`,
a non-eos argmax token 7, eos id 2) is advanced one more step and ends with
`len(tokens) = 6 > max_tokens = 5`. -/
theorem tokens_exceed_max_tokens_after_step :
    (({ prompt := "", max_tokens := 5, next_tokens := [5],
        tokens := [1, 2, 3, 4, 5], decoded := "" } : Llama3Context).is_done 2
      = some false)
    ∧ next_token_loop 2 (fun _ => 7) (fun _ => "")
        [("a", { prompt := "", max_tokens := 5, next_tokens := [5],
                 tokens := [1, 2, 3, 4, 5], decoded := "" })]
      = some ([("a", { prompt := "", max_tokens := 5, next_tokens := [7],
                       tokens := [1, 2, 3, 4, 5, 7], decoded := "" })], [])
    ∧ ({ prompt := "", max_tokens := 5, next_tokens := [7],
         tokens := [1, 2, 3, 4, 5, 7], decoded := "" } :
         Llama3Context).max_tokens
        < (({ prompt := "", max_tokens := 5, next_tokens := [7],
              tokens := [1, 2, 3, 4, 5, 7], decoded := "" } :
              Llama3Context).tokens.length : Int) := by
  refine ⟨rfl, rfl, by decide⟩

/-- C2: the claim states `is_done(eos)` is true iff the last token equals
`eos` or `len(tokens) ≥ max_tokens`. The code uses the strict comparison
`len(tokens) > max_tokens`: at the boundary `len(tokens) = max_tokens = 1`,
with a last token (5) different from the eos id (2), the claim's condition
holds but the code returns false. -/
theorem is_done_false_at_max_tokens_boundary :
    (({ prompt := "", max_tokens := 1, next_tokens := [5], tokens := [5],
        decoded := "" } : Llama3Context).is_done 2 = some false)
    ∧ ({ prompt := "", max_tokens := 1, next_tokens := [5], tokens := [5],
         decoded := "" } : Llama3Context).max_tokens
        ≤ (({ prompt := "", max_tokens := 1, next_tokens := [5], tokens := [5],
              decoded := "" } : Llama3Context).tokens.length : Int)
    ∧ ({ prompt := "", max_tokens := 1, next_tokens := [5], tokens := [5],
         decoded := "" } : Llama3Context).tokens.getLast? ≠ some 2 := by
  refine ⟨rfl, by decide, by decide⟩

/-- C3: the claim states that packing `next_tokens` rows of lengths 3 and 7
with pad direction LEFT and pad token 0 yields a 2-row batch whose row 0 is
left-padded with 4 zeros. On the code this fails: `np.pad` receives the
scalar pair `(4, 0)` and broadcasts it to both axes of the `(1, 3)` array,
producing a `(5, 7)` array (first conjunct), after which `np.stack` raises
`ValueError` on the mismatched shapes `(5, 7)` vs `(1, 7)` and
`_batch_tensors_with_padding` returns no batch tensor at all (second
conjunct). -/
theorem batch_tensors_with_padding_fails_on_unequal_lengths :
    np_pad2 [[1, 2, 3]] 4 0 0 =
      [[0, 0, 0, 0, 0, 0, 0], [0, 0, 0, 0, 0, 0, 0], [0, 0, 0, 0, 0, 0, 0],
       [0, 0, 0, 0, 0, 0, 0], [0, 0, 0, 0, 1, 2, 3]]
    ∧ _batch_tensors_with_padding
        [{ prompt := "", max_tokens := 100, next_tokens := [1, 2, 3],
           tokens := [1, 2, 3], decoded := "" },
         { prompt := "", max_tokens := 100,
           next_tokens := [4, 5, 6, 7, 8, 9, 10],
           tokens := [4, 5, 6, 7, 8, 9, 10], decoded := "" }]
        PaddingDirection.LEFT 0 = none := by
  refine ⟨by decide, by decide⟩

/-- C6: the mapping returned by a next_token step contains exactly the
request ids of the input mapping whose updated context (after the new token
is appended) is not done, each mapped to its newly decoded token fragment;
ids whose context became done are omitted. The ids of the updated contexts
are exactly those of the input, and the result is the not-done filter of
the updated contexts mapped to the decoded fragment of the produced
token. -/
theorem next_token_returns_exactly_undone_requests (eos : Int)
    (produce : String → Int) (decode : Int → String)
    (reqs : List (String × Llama3Context)) :
    ∃ out, next_token_loop eos produce decode reqs = some out ∧
      out.1.map Prod.fst = reqs.map Prod.fst ∧
      out.2 = (out.1.filter (fun p => p.2.is_done eos == some false)).map
                (fun p => (p.1, decode (produce p.1))) := by
  refine ⟨_, next_token_loop_eq eos produce decode reqs, ?_, rfl⟩
  simp [stepOne]

/-- C8: after `InferenceConfig.__post_init__`, a weight quantization
encoding other than float32/bfloat16 forces the resolved cache strategy to
NAIVE regardless of the requested strategy; for float32/bfloat16 the
requested strategy is kept. -/
theorem quantized_encoding_forces_naive_strategy (c : InferenceConfig) :
    ((c.quantization_encoding ≠ SupportedEncodings.float32 ∧
      c.quantization_encoding ≠ SupportedEncodings.bfloat16) →
       c.postInit.cache_strategy = KVCacheStrategy.NAIVE)
    ∧ ((c.quantization_encoding = SupportedEncodings.float32 ∨
        c.quantization_encoding = SupportedEncodings.bfloat16) →
       c.postInit.cache_strategy = c.cache_strategy) := by
  unfold InferenceConfig.postInit
  constructor
  · rintro ⟨h1, h2⟩
    simp [h1, h2]
  · rintro (h | h) <;> simp [h]

/-- Witness for C8 at the spec's Scenario D: a q4_k encoding with an
explicit CONTINUOUS request resolves to NAIVE. -/
theorem quantized_encoding_forces_naive_strategy_witness :
    (({ quantization_encoding := SupportedEncodings.q4_k,
        cache_strategy := KVCacheStrategy.CONTINUOUS } :
        InferenceConfig).postInit).cache_strategy = KVCacheStrategy.NAIVE :=
  (quantized_encoding_forces_naive_strategy
    { quantization_encoding := SupportedEncodings.q4_k,
      cache_strategy := KVCacheStrategy.CONTINUOUS }).1 (by decide)

/-- C9: the claim states that a negative sentinel vocab size is resolved
from the tokenizer and initialization succeeds. On the code it fails:
`Llama3.__init__` reads `self._tokenizer.vocab_size` (line 124) before
`self._tokenizer` is assigned (line 146), so a `vocab_size = -1` input
raises `AttributeError` (first conjunct: the embedded init returns `none`);
the non-negative path passes the hyperparameters through unchanged (second
conjunct). -/
theorem init_with_negative_vocab_size_fails :
    Llama3_init ({ vocab_size := -1 } : Hyperparameters) 128256 = none
    ∧ Llama3_init ({ } : Hyperparameters) 128256
        = some ({ } : Hyperparameters) := by
  refine ⟨rfl, rfl⟩

/-- C4: on every next_token call, if the supplied request id set differs in
any way from the recorded session set, the cache's `sequence_length` is
reset to zero and the session set becomes exactly the supplied id set
(first conjunct); if the id set is identical, the state is left unchanged
by reconciliation (second conjunct). -/
theorem sessions_reset_exactly_on_membership_change (eos : Int)
    (produce : String → Int) (decode : Int → String) (st : Llama3State)
    (reqs : List (String × Llama3Context))
    (out : Llama3State ×
      (List (String × Llama3Context) × List (String × String)))
    (h : next_token eos produce decode st reqs = some out) :
    (st._sessions ≠ (reqs.map Prod.fst).toFinset →
       out.1 = ⟨(reqs.map Prod.fst).toFinset, 0⟩)
    ∧ (st._sessions = (reqs.map Prod.fst).toFinset → out.1 = st) := by
  have hst : out.1 = reconcile_sessions st (reqs.map Prod.fst).toFinset := by
    unfold next_token at h
    cases hl : next_token_loop eos produce decode reqs with
    | none => rw [hl] at h; simp at h
    | some o =>
      rw [hl] at h
      have h2 : (reconcile_sessions st (reqs.map Prod.fst).toFinset, o)
          = out := Option.some.inj h
      rw [← h2]
  unfold reconcile_sessions _reset_cache at hst
  constructor
  · intro hne
    rw [hst]
    rw [if_pos]
    intro heq
    exact hne ((sdiff_union_sdiff_eq_empty_iff _ _).mp heq)
  · intro heq
    rw [hst]
    rw [if_neg]
    simp only [ne_eq, not_not]
    exact (sdiff_union_sdiff_eq_empty_iff _ _).mpr heq

/-- Witness for C4: a step whose id set {"b"} differs from the empty
session set resets `sequence_length` from 5 to 0 and records {"b"}. -/
theorem sessions_reset_exactly_on_membership_change_witness :
    (⟨{"b"}, 0⟩ : Llama3State)
      = ⟨([("b", ({ prompt := "", max_tokens := 10, next_tokens := [5],
                    tokens := [1], decoded := "" } :
                   Llama3Context))].map Prod.fst).toFinset, 0⟩ :=
  (sessions_reset_exactly_on_membership_change 2 (fun _ => 7) (fun _ => "")
    ⟨∅, 5⟩
    [("b", { prompt := "", max_tokens := 10, next_tokens := [5],
             tokens := [1], decoded := "" })]
    (⟨{"b"}, 0⟩,
     ([("b", { prompt := "", max_tokens := 10, next_tokens := [7],
               tokens := [1, 7], decoded := "" })], [("b", "")]))
    (by decide)).1 (by decide)

/-- C5 counterexample: the claim states `new_context` raises
`PromptTooLongError` exactly when the encoded prompt leaves no room for
generation under the length cap. On the code there is no such error path:
with `max_length = 4` and a 6-token encoded prompt (room
`max_length - prompt_size = -2 < 0`), a context is still returned, with
`max_tokens = 4` — smaller than the prompt itself. -/
theorem new_context_accepts_prompt_with_no_room :
    new_context ({ max_length := 4 } : InferenceConfig) ""
        [1, 2, 3, 4, 5, 6] none
      = some { prompt := "", max_tokens := 4,
               next_tokens := [1, 2, 3, 4, 5, 6],
               tokens := [1, 2, 3, 4, 5, 6], decoded := "" }
    ∧ ({ max_length := 4 } : InferenceConfig).max_length
        - (([1, 2, 3, 4, 5, 6] : List Int).length : Int) < 0 := by
  refine ⟨rfl, by decide⟩

/-- C5 amended: `new_context` never fails on a too-long prompt; for every
configuration and every non-empty encoded prompt it returns a context (the
only failing path is the `append` assert on an empty encoding), so a
request whose prompt leaves no room for generation still enters the
scheduler. -/
theorem new_context_never_fails_on_nonempty_prompt
    (config : InferenceConfig) (prompt : String) (encoded_prompt : List Int)
    (max_new_tokens : Option Int) (h : encoded_prompt ≠ []) :
    ∃ ctx, new_context config prompt encoded_prompt max_new_tokens
      = some ctx := by
  unfold new_context Llama3Context.append
  have h1 : 1 ≤ encoded_prompt.length := by
    cases encoded_prompt with
    | nil => exact absurd rfl h
    | cons a l => simp
  simp [h1]

/-- Witness for C5's amended claim, at the no-room input of the
counterexample. -/
theorem new_context_never_fails_on_nonempty_prompt_witness :
    ([1, 2, 3, 4, 5, 6] : List Int) ≠ []
    ∧ ∃ ctx, new_context ({ max_length := 4 } : InferenceConfig) ""
        [1, 2, 3, 4, 5, 6] none = some ctx :=
  ⟨by decide,
   new_context_never_fails_on_nonempty_prompt { max_length := 4 } ""
     [1, 2, 3, 4, 5, 6] none (by decide)⟩

/-- C7: the `max_tokens` of a created context equals
`min(prompt_len + requested_new_tokens, max_length)` when an explicit
non-negative cap is given (first conjunct), and equals the configured
`max_length` sequence-length limit when no explicit cap is given and the
config default is the negative sentinel (second conjunct). -/
theorem max_tokens_is_min_of_cap_and_limit (config : InferenceConfig)
    (prompt : String) (encoded_prompt : List Int) :
    (∀ c : Int, 0 ≤ c → ∀ ctx,
       new_context config prompt encoded_prompt (some c) = some ctx →
       ctx.max_tokens
         = min ((encoded_prompt.length : Int) + c) config.max_length)
    ∧ (config.max_new_tokens < 0 → ∀ ctx,
       new_context config prompt encoded_prompt none = some ctx →
       ctx.max_tokens = config.max_length) := by
  constructor
  · intro c hc ctx h
    unfold new_context Llama3Context.append at h
    by_cases hl : 1 ≤ encoded_prompt.length
    · simp only [hl, if_pos] at h
      have h2 := Option.some.inj h
      subst h2
      show (encoded_prompt.length : Int)
          + _max_tokens_to_generate (encoded_prompt.length : Int) config
              (some c)
        = min ((encoded_prompt.length : Int) + c) config.max_length
      unfold _max_tokens_to_generate
      dsimp only
      rw [if_neg (not_lt.mpr hc)]
      rcases le_total c (config.max_length - (encoded_prompt.length : Int))
        with hle | hle
      · rw [min_eq_left hle, min_eq_left (by omega)]
      · rw [min_eq_right hle, min_eq_right (by omega)]
        omega
    · simp [hl] at h
  · intro hneg ctx h
    unfold new_context Llama3Context.append at h
    by_cases hl : 1 ≤ encoded_prompt.length
    · simp only [hl, if_pos] at h
      have h2 := Option.some.inj h
      subst h2
      show (encoded_prompt.length : Int)
          + _max_tokens_to_generate (encoded_prompt.length : Int) config none
        = config.max_length
      unfold _max_tokens_to_generate
      dsimp only
      rw [if_pos hneg]
      omega
    · simp [hl] at h

/-- Witness for C7: prompt length 3, explicit cap 4, `max_length = 10`
gives `max_tokens = min (3 + 4) 10 = 7`. -/
theorem max_tokens_is_min_of_cap_and_limit_witness :
    ({ prompt := "", max_tokens := 7, next_tokens := [1, 2, 3],
       tokens := [1, 2, 3], decoded := "" } : Llama3Context).max_tokens
      = min ((([1, 2, 3] : List Int).length : Int) + 4)
          ({ max_length := 10 } : InferenceConfig).max_length :=
  (max_tokens_is_min_of_cap_and_limit { max_length := 10 } "" [1, 2, 3]).1
    4 (by decide)
    { prompt := "", max_tokens := 7, next_tokens := [1, 2, 3],
      tokens := [1, 2, 3], decoded := "" }
    (by decide)

/-- C10: `is_done` reads `tokens[-1]` with no emptiness guard, so it is
well-defined only for non-empty `tokens`: on an empty token list the access
fails (`none`) rather than returning false (first conjunct). The
precondition is established at creation: every context returned by
`new_context` carries the full encoded prompt, so its `tokens` is non-empty
and `is_done` is defined on it (second conjunct). -/
theorem is_done_needs_nonempty_tokens_established_at_creation :
    (∀ (ctx : Llama3Context) (eos : Int), ctx.tokens = [] →
       ctx.is_done eos = none)
    ∧ (∀ (config : InferenceConfig) (prompt : String)
         (encoded_prompt : List Int) (max_new_tokens : Option Int)
         (ctx : Llama3Context) (eos : Int),
       new_context config prompt encoded_prompt max_new_tokens = some ctx →
       ctx.tokens ≠ [] ∧ (ctx.is_done eos).isSome = true) := by
  constructor
  · intro ctx eos h
    unfold Llama3Context.is_done
    rw [h]
    rfl
  · intro config prompt encoded_prompt max_new_tokens ctx eos h
    unfold new_context Llama3Context.append at h
    by_cases hl : 1 ≤ encoded_prompt.length
    · simp only [hl, if_pos] at h
      have h2 := Option.some.inj h
      subst h2
      have hne : ([] ++ encoded_prompt : List Int) ≠ [] := by
        simp only [List.nil_append]
        exact List.length_pos.mp hl
      refine ⟨hne, ?_⟩
      obtain ⟨b, hb⟩ := is_done_of_ne_nil
        { prompt := prompt,
          max_tokens := (encoded_prompt.length : Int)
            + _max_tokens_to_generate (encoded_prompt.length : Int) config
                max_new_tokens,
          next_tokens := encoded_prompt,
          tokens := [] ++ encoded_prompt,
          decoded := "" ++ prompt } eos hne
      rw [hb]
      rfl
    · simp [hl] at h

/-- Witness for C10: an empty-token context makes `is_done` fail, and a
context freshly created from the one-token encoding `[9]` has non-empty
tokens and a defined `is_done`. -/
theorem is_done_needs_nonempty_tokens_witness :
    (({ prompt := "", max_tokens := 0 } : Llama3Context).is_done 2 = none)
    ∧ (({ prompt := "", max_tokens := 512, next_tokens := [9], tokens := [9],
          decoded := "" } : Llama3Context).tokens ≠ []
       ∧ (({ prompt := "", max_tokens := 512, next_tokens := [9],
             tokens := [9], decoded := "" } : Llama3Context).is_done 2).isSome
          = true) :=
  ⟨is_done_needs_nonempty_tokens_established_at_creation.1
     { prompt := "", max_tokens := 0 } 2 rfl,
   is_done_needs_nonempty_tokens_established_at_creation.2
     ({ } : InferenceConfig) "" [9] none
     { prompt := "", max_tokens := 512, next_tokens := [9], tokens := [9],
       decoded := "" } 2 (by decide)⟩
